import Mathlib

/-!
Verification of the OutfitPickerCLI core (rust-rewrite): the rotation cache
data model (`src/domain/models.rs`), the category scanner
(`src/infrastructure/fs/scanner.rs`) and the selection engine
(`src/application/picker.rs`), shallowly embedded as pure Lean functions.

Conventions of the embedding:
- `HashSet<String>` worn sets become `List String` with guarded insertion
  (insert only when absent), which matches set membership semantics.
- `HashMap<String, CategoryCache>` becomes a function
  `String → Option CategoryCache`.
- Timestamps (`DateTime<Utc>` / `Utc::now()`) become an explicit `now : Nat`
  argument threaded into every mutating operation.
- `f64` rotation progress becomes `ℚ` (the exact value of the division).
- The random draw `available.choose(&mut rng)` becomes indexing by an
  arbitrary natural `k`: `available[k % available.length]?`, which is `none`
  exactly when `available` is empty, mirroring `SliceRandom::choose`.
- Async filesystem calls are factored out: the scanned file list of a
  category (`get_outfits`) and the loaded cache (`cache_manager.load()`)
  are inputs, and each selection operation returns the cache state that was
  persisted by `cache_manager.save` (the input cache when no save happens).
-/

namespace OutfitPickerCLI

/-- A single quote character, used in the not-found error message of
`select_outfit_manually`. -/
def squote : String := String.mk [Char.ofNat 39]

/-- The input-validation test `s.trim().is_empty()` of the picker: a name is
rejected exactly when it consists of whitespace only, which is when every
character is whitespace. -/
def isBlank (s : String) : Bool :=
  s.data.all (fun c => c.isWhitespace)

/- ### Error taxonomy (src/domain/error.rs) -/

/-- `ConfigError` from src/domain/error.rs. -/
inductive ConfigError where
  | EmptyRoot
  | MissingRoot
  | UnsupportedLanguage (lang : String)
  | PathTraversalNotAllowed
  | PathTooLong
  | RestrictedPath
  | SymlinkNotAllowed
  | InvalidCharacters
  deriving DecidableEq, Repr

/-- `FileSystemError` from src/domain/error.rs. -/
inductive FileSystemError where
  | FileNotFound (s : String)
  | DirectoryNotFound (s : String)
  | PermissionDenied (s : String)
  | InvalidPath (s : String)
  | OperationFailed (s : String)
  deriving DecidableEq, Repr

/-- `CacheError` from src/domain/error.rs. -/
inductive CacheError where
  | EncodingFailed
  | DecodingFailed
  | InvalidData
  deriving DecidableEq, Repr

/-- `OutfitPickerError` from src/domain/error.rs; the `Io` and
`Serialization` payloads are modelled by their message strings. -/
inductive OutfitPickerError where
  | Config (e : ConfigError)
  | FileSystem (e : FileSystemError)
  | Cache (e : CacheError)
  | InvalidInput (s : String)
  | NoOutfitsAvailable
  | CategoryNotFound (s : String)
  | Io (s : String)
  | Serialization (s : String)
  deriving DecidableEq, Repr

/-- The "not-found" kinds of the error taxonomy (§7 of the spec):
a missing root/category directory or an absent named file. -/
def OutfitPickerError.isNotFoundKind : OutfitPickerError → Bool
  | .CategoryNotFound _ => true
  | .FileSystem (.FileNotFound _) => true
  | .FileSystem (.DirectoryNotFound _) => true
  | _ => false

/- ### Domain models (src/domain/models.rs) -/

/-- `CategoryState` from src/domain/models.rs. -/
inductive CategoryState where
  | HasOutfits
  | Empty
  | NoAvatarFiles
  | UserExcluded
  deriving DecidableEq, Repr

/-- `CategoryReference` from src/domain/models.rs. -/
structure CategoryReference where
  name : String
  path : String
  deriving DecidableEq, Repr

/-- `CategoryInfo` from src/domain/models.rs. -/
structure CategoryInfo where
  category : CategoryReference
  state : CategoryState
  outfit_count : Nat
  worn_count : Nat
  deriving DecidableEq, Repr

/-- `CategoryInfo::new` (sets `worn_count` to 0). -/
def CategoryInfo.new (category : CategoryReference) (state : CategoryState)
    (outfit_count : Nat) : CategoryInfo :=
  ⟨category, state, outfit_count, 0⟩

/-- `FileEntry` from src/domain/models.rs. -/
structure FileEntry where
  file_path : String
  file_name : String
  category_name : String
  category_path : String
  deriving DecidableEq, Repr

instance : Inhabited FileEntry := ⟨⟨"", "", "", ""⟩⟩

/-- `FileEntry::is_avatar_file`. -/
def FileEntry.is_avatar_file (e : FileEntry) : Bool :=
  e.file_name.endsWith ".avatar"

/-- `CategoryCache` from src/domain/models.rs: the per-category rotation
entry. The `HashSet<String>` of worn names is a duplicate-free list. -/
structure CategoryCache where
  worn_outfits : List String
  total_outfits : Nat
  last_updated : Nat
  deriving DecidableEq, Repr

/-- `CategoryCache::new`. -/
def CategoryCache.new (total_outfits now : Nat) : CategoryCache :=
  ⟨[], total_outfits, now⟩

/-- `CategoryCache::is_rotation_complete`:
`worn_outfits.len() >= total_outfits`. -/
def CategoryCache.is_rotation_complete (e : CategoryCache) : Bool :=
  decide (e.total_outfits ≤ e.worn_outfits.length)

/-- `CategoryCache::rotation_progress`: `1.0` when `total_outfits == 0`,
otherwise `worn_outfits.len() / total_outfits` (exact value in ℚ). -/
def CategoryCache.rotation_progress (e : CategoryCache) : ℚ :=
  if e.total_outfits = 0 then 1
  else (e.worn_outfits.length : ℚ) / (e.total_outfits : ℚ)

/-- `CategoryCache::remaining_outfits` (saturating subtraction). -/
def CategoryCache.remaining_outfits (e : CategoryCache) : Nat :=
  e.total_outfits - e.worn_outfits.length

/-- `CategoryCache::add_worn`: set-insertion of the file name, always
refreshing `last_updated`. -/
def CategoryCache.add_worn (e : CategoryCache) (file_name : String)
    (now : Nat) : CategoryCache :=
  { e with
    worn_outfits :=
      if e.worn_outfits.contains file_name then e.worn_outfits
      else file_name :: e.worn_outfits,
    last_updated := now }

/-- `CategoryCache::reset`: clears the worn set, keeps the total. -/
def CategoryCache.reset (e : CategoryCache) (now : Nat) : CategoryCache :=
  { e with worn_outfits := [], last_updated := now }

/-- `OutfitCache` from src/domain/models.rs; the `HashMap` of categories is
a function from path strings to optional entries. -/
structure OutfitCache where
  categories : String → Option CategoryCache
  version : Nat
  created_at : Nat

/-- `OutfitCache::new`. -/
def OutfitCache.new (now : Nat) : OutfitCache :=
  ⟨fun _ => none, 1, now⟩

/-- Writing one entry of the category map (the functional rendering of
mutation through the `&mut CategoryCache` borrow). -/
def OutfitCache.updateEntry (c : OutfitCache) (category_path : String)
    (e : CategoryCache) : OutfitCache :=
  { c with
    categories := fun q =>
      if q = category_path then some e else c.categories q }

/-- `OutfitCache::get_or_create`: returns the (possibly extended) cache and
the entry for the key. When the key is present the cache and the entry are
returned untouched; when absent a fresh `CategoryCache::new total now` is
inserted. -/
def OutfitCache.get_or_create (c : OutfitCache) (category_path : String)
    (total_outfits now : Nat) : OutfitCache × CategoryCache :=
  match c.categories category_path with
  | some e => (c, e)
  | none =>
      let e := CategoryCache.new total_outfits now
      (c.updateEntry category_path e, e)

/-- `OutfitCache::reset_all`: resets every entry. -/
def OutfitCache.reset_all (c : OutfitCache) (now : Nat) : OutfitCache :=
  { c with
    categories := fun q => (c.categories q).map (fun e => e.reset now) }

/-- `OutfitCache::remove`. -/
def OutfitCache.remove (c : OutfitCache) (category_path : String) :
    OutfitCache :=
  { c with
    categories := fun q =>
      if q = category_path then none else c.categories q }

/-- `OutfitSelection` from src/domain/models.rs. -/
structure OutfitSelection where
  outfit : FileEntry
  rotation_progress : ℚ
  rotation_was_reset : Bool
  deriving DecidableEq, Repr

/- ### Category scanner (src/infrastructure/fs/scanner.rs) -/

/-- One entry of a category directory as the scanner observes it: its name
and whether it is a regular file (`path.is_file()`). -/
structure DirEntry where
  name : String
  is_file : Bool
  deriving DecidableEq, Repr

/-- Stable insertion of a file entry into a list sorted by file name
(the model of `outfits.sort_by(|a, b| a.file_name.cmp(&b.file_name))`). -/
def insertByName (x : FileEntry) : List FileEntry → List FileEntry
  | [] => [x]
  | y :: ys =>
      if x.file_name ≤ y.file_name then x :: y :: ys
      else y :: insertByName x ys

/-- Sort a list of file entries by file name, ascending. -/
def sortByName (l : List FileEntry) : List FileEntry :=
  l.foldr insertByName []

/-- `CategoryScanner::scan_outfits` on a category directory whose regular
files and subdirectories are `entries`: keep regular files, build
`FileEntry`s, keep `.avatar` files, sort by file name. -/
def scan_outfits (category_name category_path : String)
    (entries : List DirEntry) : List FileEntry :=
  sortByName
    (((entries.filter (fun d => d.is_file)).map
        (fun d =>
          FileEntry.mk (category_path ++ "/" ++ d.name) d.name
            category_name category_path)).filter
      (fun f => f.is_avatar_file))

/-- `CategoryScanner::has_any_files`: whether the directory contains any
regular file at all. -/
def has_any_files (entries : List DirEntry) : Bool :=
  entries.any (fun d => d.is_file)

/-- `CategoryScanner::scan_single_category`: exclusion short-circuits to
`UserExcluded` with count 0; otherwise the state is derived from the
`.avatar` file count and `has_any_files`. -/
def scan_single_category (name path : String) (entries : List DirEntry)
    (excluded_categories : List String) : CategoryInfo :=
  let category_ref := CategoryReference.mk name path
  if excluded_categories.contains name then
    CategoryInfo.new category_ref CategoryState.UserExcluded 0
  else
    let outfits := scan_outfits name path entries
    let outfit_count := outfits.length
    let state :=
      if 0 < outfit_count then CategoryState.HasOutfits
      else if has_any_files entries then CategoryState.NoAvatarFiles
      else CategoryState.Empty
    CategoryInfo.new category_ref state outfit_count

/- ### Selection engine (src/application/picker.rs) -/

/-- `OutfitPickerService::get_rotation_status` on the success path, with the
scanned file list and the loaded cache as inputs: `(0, 0)` for an empty
list, otherwise the worn count of the entry keyed by `outfits[0]`'s
category path (0 when absent) paired with the file count. -/
def get_rotation_status (outfits : List FileEntry) (cache : OutfitCache) :
    Nat × Nat :=
  if outfits.isEmpty then (0, 0)
  else
    let category_path := outfits.headI.category_path
    let worn :=
      match cache.categories category_path with
      | some c => c.worn_outfits.length
      | none => 0
    (worn, outfits.length)

/-- `OutfitPickerService::is_rotation_complete`:
`total > 0 && worn >= total` over `get_rotation_status`. -/
def picker_is_rotation_complete (outfits : List FileEntry)
    (cache : OutfitCache) : Bool :=
  let ws := get_rotation_status outfits cache
  decide (0 < ws.2) && decide (ws.2 ≤ ws.1)

/-- `OutfitPickerService::select_random_outfit` on the path where the scan
succeeded, with the scanned file list (`outfits`), the loaded cache, the
random draw index `k` and the clock `now` as inputs. The returned cache is
the persisted state: the input cache when the call does not save. -/
def select_random_outfit (category_name : String)
    (outfits : List FileEntry) (cache : OutfitCache) (k now : Nat) :
    Except OutfitPickerError (Option OutfitSelection × OutfitCache) :=
  if isBlank category_name then
    .error (.InvalidInput "Category name cannot be empty")
  else if outfits.isEmpty then
    .ok (none, cache)
  else
    let category_path := outfits.headI.category_path
    let gc := cache.get_or_create category_path outfits.length now
    let entry := gc.2
    let rotation_was_reset := entry.is_rotation_complete
    let entry1 := if entry.is_rotation_complete then entry.reset now else entry
    let cache2 := gc.1.updateEntry category_path entry1
    let available :=
      outfits.filter (fun o => !(entry1.worn_outfits.contains o.file_name))
    match available[k % available.length]? with
    | some outfit =>
        let gc2 := cache2.get_or_create category_path outfits.length now
        let entry2 := gc2.2.add_worn outfit.file_name now
        let cache3 := gc2.1.updateEntry category_path entry2
        .ok (some ⟨outfit, entry2.rotation_progress, rotation_was_reset⟩,
          cache3)
    | none => .ok (none, cache)

/-- `OutfitPickerService::select_outfit_manually` on the path where the scan
succeeded, with the scanned file list and the loaded cache as inputs. The
returned cache is the persisted state. -/
def select_outfit_manually (category_name file_name : String)
    (outfits : List FileEntry) (cache : OutfitCache) (now : Nat) :
    Except OutfitPickerError (OutfitSelection × OutfitCache) :=
  if isBlank category_name then
    .error (.InvalidInput "Category name cannot be empty")
  else if isBlank file_name then
    .error (.InvalidInput "File name cannot be empty")
  else if outfits.isEmpty then
    .error .NoOutfitsAvailable
  else
    match outfits.find? (fun o => o.file_name == file_name) with
    | none =>
        .error (.InvalidInput
          ("Outfit " ++ squote ++ file_name ++ squote ++
            " not found in category " ++ squote ++ category_name ++ squote))
    | some outfit =>
        let category_path := outfit.category_path
        let gc := cache.get_or_create category_path outfits.length now
        let entry := gc.2
        let rotation_was_reset := entry.is_rotation_complete
        let entry1 :=
          if entry.is_rotation_complete then entry.reset now else entry
        let entry2 := entry1.add_worn outfit.file_name now
        let cache2 := gc.1.updateEntry category_path entry2
        .ok (⟨outfit, entry2.rotation_progress, rotation_was_reset⟩, cache2)

/- ### Basic lemmas about the cache operations -/

theorem get_or_create_of_present {c : OutfitCache} {p : String}
    {e : CategoryCache} (h : c.categories p = some e) (total now : Nat) :
    c.get_or_create p total now = (c, e) := by
  simp [OutfitCache.get_or_create, h]

theorem get_or_create_of_absent {c : OutfitCache} {p : String}
    (h : c.categories p = none) (total now : Nat) :
    c.get_or_create p total now =
      (c.updateEntry p (CategoryCache.new total now),
        CategoryCache.new total now) := by
  simp [OutfitCache.get_or_create, h]

theorem updateEntry_categories_self (c : OutfitCache) (p : String)
    (e : CategoryCache) : (c.updateEntry p e).categories p = some e := by
  simp [OutfitCache.updateEntry]

theorem updateEntry_categories_other (c : OutfitCache) {p q : String}
    (e : CategoryCache) (h : q ≠ p) :
    (c.updateEntry p e).categories q = c.categories q := by
  simp [OutfitCache.updateEntry, h]

/- ### Concrete fixtures -/

/-- An `.avatar` file in the category `Casual`. -/
def fe_a : FileEntry :=
  ⟨"/root/Casual/a.avatar", "a.avatar", "Casual", "/root/Casual"⟩

/-- A fresh, empty cache. -/
def emptyCache : OutfitCache := OutfitCache.new 0

/-- A stale cache: the entry for `Casual` was created when the category had
two files (`total_outfits = 2`), `a.avatar` has been worn, and the other
file has since disappeared from the filesystem. -/
def staleCache : OutfitCache :=
  (OutfitCache.new 0).updateEntry "/root/Casual" ⟨["a.avatar"], 2, 0⟩

/-- A cache whose `Casual` entry has a fully worn rotation:
one file in the category, one worn name. -/
def fullCache : OutfitCache :=
  (OutfitCache.new 0).updateEntry "/root/Casual" ⟨["a.avatar"], 1, 0⟩

/- ### Claims -/

/-- C3: `get_or_create(key, total)` inserts a fresh entry with the supplied
total and an empty worn set when the key is absent (leaving every other key
unchanged), and when the key is present it returns the cache and the
existing entry completely unchanged — the supplied `total` does not occur
in the result. -/
theorem get_or_create_contract (c : OutfitCache) (p : String)
    (total now : Nat) :
    (c.categories p = none →
      (c.get_or_create p total now).1.categories p =
          some (CategoryCache.new total now) ∧
        (c.get_or_create p total now).2 = CategoryCache.new total now ∧
        (CategoryCache.new total now).worn_outfits = [] ∧
        (CategoryCache.new total now).total_outfits = total ∧
        ∀ q, q ≠ p →
          (c.get_or_create p total now).1.categories q = c.categories q) ∧
    ∀ e, c.categories p = some e →
      (c.get_or_create p total now).1 = c ∧
        (c.get_or_create p total now).2 = e := by
  constructor
  · intro h
    rw [get_or_create_of_absent h]
    refine ⟨updateEntry_categories_self .., rfl, rfl, rfl, ?_⟩
    intro q hq
    exact updateEntry_categories_other c (CategoryCache.new total now) hq
  · intro e h
    rw [get_or_create_of_present h]
    exact ⟨rfl, rfl⟩

/-- C3 witness: on an empty cache the key is created with the given total
and empty worn set; on a cache already holding `/root/Casual` with
`total_outfits = 2`, `get_or_create` with total 99 returns the cache and
the entry untouched. -/
theorem get_or_create_contract_witness :
    (emptyCache.get_or_create "/root/Casual" 3 7).1.categories
        "/root/Casual" = some (CategoryCache.new 3 7) ∧
      (staleCache.get_or_create "/root/Casual" 99 7).1 = staleCache ∧
      (staleCache.get_or_create "/root/Casual" 99 7).2 =
        ⟨["a.avatar"], 2, 0⟩ :=
  ⟨((get_or_create_contract emptyCache "/root/Casual" 3 7).1 rfl).1,
    ((get_or_create_contract staleCache "/root/Casual" 99 7).2
        ⟨["a.avatar"], 2, 0⟩ rfl).1,
    ((get_or_create_contract staleCache "/root/Casual" 99 7).2
        ⟨["a.avatar"], 2, 0⟩ rfl).2⟩

/-- C5: `reset()` clears the worn set to empty and leaves the
total-outfits count unchanged. -/
theorem reset_clears_worn_preserves_total (e : CategoryCache) (now : Nat) :
    (e.reset now).worn_outfits = [] ∧
      (e.reset now).total_outfits = e.total_outfits :=
  ⟨rfl, rfl⟩

/-- C8: marking the same file name worn twice leaves the worn count exactly
as it was after the first call — the second insertion does not grow the
set. -/
theorem add_worn_idempotent_count (e : CategoryCache) (name : String)
    (t1 t2 : Nat) :
    ((e.add_worn name t1).add_worn name t2).worn_outfits.length =
      (e.add_worn name t1).worn_outfits.length := by
  by_cases h : name ∈ e.worn_outfits <;>
    simp [CategoryCache.add_worn, h]

/-- C9: for a category whose current file list is empty,
`get_rotation_status` returns `(0, 0)` and the picker-level
`is_rotation_complete` returns `false`, whatever the cache holds. -/
theorem empty_category_rotation_status (cache : OutfitCache) :
    get_rotation_status [] cache = (0, 0) ∧
      picker_is_rotation_complete [] cache = false :=
  ⟨rfl, rfl⟩

/-- C4 counterexample: the claim that `rotation_progress()` always lies in
`[0.0, 1.0]` even when the worn set is larger than the total fails — an
entry with two worn names and `total_outfits = 1` has progress 2. -/
theorem rotation_progress_exceeds_one :
    1 < (CategoryCache.mk ["a", "b"] 1 0).rotation_progress := by
  norm_num [CategoryCache.rotation_progress]

/-- C4 (amended): `rotation_progress()` equals `len(worn)/total` when
`total > 0` and `1.0` when `total == 0`, and it lies in `[0.0, 1.0]`
whenever `len(worn) ≤ total`; there is no clamping, so a worn set larger
than the total yields a value above 1. -/
theorem rotation_progress_amended (e : CategoryCache) :
    (e.total_outfits = 0 → e.rotation_progress = 1) ∧
      (0 < e.total_outfits →
        e.rotation_progress =
          (e.worn_outfits.length : ℚ) / (e.total_outfits : ℚ)) ∧
      (e.worn_outfits.length ≤ e.total_outfits →
        0 ≤ e.rotation_progress ∧ e.rotation_progress ≤ 1) := by
  refine ⟨fun h => by simp [CategoryCache.rotation_progress, h], ?_, ?_⟩
  · intro h
    rw [CategoryCache.rotation_progress, if_neg (Nat.pos_iff_ne_zero.mp h)]
  · intro h
    rw [CategoryCache.rotation_progress]
    by_cases h0 : e.total_outfits = 0
    · rw [if_pos h0]
      norm_num
    · rw [if_neg h0]
      have ht : (0 : ℚ) < (e.total_outfits : ℚ) := by
        exact_mod_cast Nat.pos_of_ne_zero h0
      constructor
      · positivity
      · rw [div_le_one ht]
        exact_mod_cast h

/-- C4 witness: an entry with one worn name out of two has a progress that
the amended bound places inside `[0, 1]`. -/
theorem rotation_progress_amended_witness :
    0 ≤ (CategoryCache.mk ["a"] 2 0).rotation_progress ∧
      (CategoryCache.mk ["a"] 2 0).rotation_progress ≤ 1 :=
  (rotation_progress_amended ⟨["a"], 2, 0⟩).2.2 (by norm_num)

/-- C6: an excluded category is reported as `UserExcluded` with file count
0 whatever the directory holds, and is never reported as having files. -/
theorem exclusion_precedence (name path : String) (entries : List DirEntry)
    (excluded_categories : List String)
    (h : excluded_categories.contains name = true) :
    scan_single_category name path entries excluded_categories =
        CategoryInfo.new ⟨name, path⟩ CategoryState.UserExcluded 0 ∧
      (scan_single_category name path entries excluded_categories).state ≠
        CategoryState.HasOutfits := by
  have hmem : name ∈ excluded_categories := by simpa using h
  have h1 : scan_single_category name path entries excluded_categories =
      CategoryInfo.new ⟨name, path⟩ CategoryState.UserExcluded 0 := by
    simp [scan_single_category, hmem]
  refine ⟨h1, ?_⟩
  rw [h1]
  simp [CategoryInfo.new]

/-- C6 witness: a category on the exclusion list whose directory contains a
matching `.avatar` file is still reported `UserExcluded` with count 0. -/
theorem exclusion_precedence_witness :
    scan_single_category "Casual" "/root/Casual" [⟨"x.avatar", true⟩]
          ["Casual"] =
        CategoryInfo.new ⟨"Casual", "/root/Casual"⟩
          CategoryState.UserExcluded 0 ∧
      (scan_single_category "Casual" "/root/Casual" [⟨"x.avatar", true⟩]
          ["Casual"]).state ≠ CategoryState.HasOutfits :=
  exclusion_precedence "Casual" "/root/Casual" [⟨"x.avatar", true⟩]
    ["Casual"] rfl

/-- C7 counterexample: manually selecting a file that is absent from the
category fails with `InvalidInput`, which is not one of the taxonomy's
not-found kinds (`CategoryNotFound`, `FileNotFound`,
`DirectoryNotFound`). -/
theorem manual_select_absent_error_kind :
    select_outfit_manually "Casual" "b.avatar" [fe_a] emptyCache 0 =
        .error (.InvalidInput ("Outfit " ++ squote ++ "b.avatar" ++ squote ++
          " not found in category " ++ squote ++ "Casual" ++ squote)) ∧
      OutfitPickerError.isNotFoundKind
          (.InvalidInput ("Outfit " ++ squote ++ "b.avatar" ++ squote ++
            " not found in category " ++ squote ++ "Casual" ++ squote)) =
        false :=
  ⟨rfl, rfl⟩

/-- C7 (amended): manual selection of a name absent from the category's
current file list fails, but with the `InvalidInput` error kind carrying a
"not found" message, not with one of the taxonomy's distinct not-found
kinds. -/
theorem manual_select_absent_invalid_input (category_name file_name : String)
    (outfits : List FileEntry) (cache : OutfitCache) (now : Nat)
    (hc : isBlank category_name = false) (hf : isBlank file_name = false)
    (hne : outfits ≠ [])
    (habs : ∀ o ∈ outfits, o.file_name ≠ file_name) :
    select_outfit_manually category_name file_name outfits cache now =
        .error (.InvalidInput ("Outfit " ++ squote ++ file_name ++ squote ++
          " not found in category " ++ squote ++ category_name ++ squote)) ∧
      ∀ s, OutfitPickerError.isNotFoundKind (.InvalidInput s) = false := by
  have hfind : outfits.find? (fun o => o.file_name == file_name) = none := by
    rw [List.find?_eq_none]
    intro o ho
    simp [habs o ho]
  refine ⟨?_, fun s => rfl⟩
  simp [select_outfit_manually, hc, hf, hne, hfind]

/-- C7 witness: with `a.avatar` the only file of `Casual`, asking for
`b.avatar` yields the `InvalidInput` not-found message. -/
theorem manual_select_absent_invalid_input_witness :
    select_outfit_manually "Casual" "b.avatar" [fe_a] staleCache 3 =
        .error (.InvalidInput ("Outfit " ++ squote ++ "b.avatar" ++ squote ++
          " not found in category " ++ squote ++ "Casual" ++ squote)) ∧
      ∀ s, OutfitPickerError.isNotFoundKind (.InvalidInput s) = false :=
  manual_select_absent_invalid_input "Casual" "b.avatar" [fe_a] staleCache 3
    rfl rfl (by simp) (by decide)

/-- C1: for a category with `N ≥ 1` files whose cache entry records `N`
worn files and total `N` (the state after `N` random selections each
wearing a distinct file), the next `select_random_outfit` call reports
`rotation_was_reset = true` and the persisted entry's worn set has exactly
1 element. -/
theorem select_random_exhaustion_resets (category_name : String)
    (o : FileEntry) (rest : List FileEntry) (cache : OutfitCache)
    (e : CategoryCache) (k now : Nat)
    (hname : isBlank category_name = false)
    (hentry : cache.categories o.category_path = some e)
    (hworn : e.worn_outfits.length = (o :: rest).length)
    (htotal : e.total_outfits = (o :: rest).length) :
    ∃ sel cache2,
      select_random_outfit category_name (o :: rest) cache k now =
          .ok (some sel, cache2) ∧
        sel.rotation_was_reset = true ∧
        ∃ e2, cache2.categories o.category_path = some e2 ∧
          e2.worn_outfits.length = 1 := by
  have hcomplete : e.is_rotation_complete = true := by
    simp [CategoryCache.is_rotation_complete, hworn, htotal]
  have hi : k % (o :: rest).length < (o :: rest).length :=
    Nat.mod_lt _ (Nat.succ_pos _)
  simp only [select_random_outfit, hname, Bool.false_eq_true, if_false,
    List.isEmpty_cons, List.headI, OutfitCache.get_or_create, hentry,
    hcomplete, if_true, updateEntry_categories_self, CategoryCache.reset,
    List.contains_nil, Bool.not_false, List.filter_true,
    List.getElem?_eq_getElem hi]
  refine ⟨_, _, rfl, rfl, _, updateEntry_categories_self .., ?_⟩
  simp [CategoryCache.add_worn]

/-- C1 witness: with one file, its name worn and total 1, the next call on
`Casual` resets and leaves one worn name. -/
theorem select_random_exhaustion_resets_witness :
    ∃ sel cache2,
      select_random_outfit "Casual" [fe_a] fullCache 0 5 =
          .ok (some sel, cache2) ∧
        sel.rotation_was_reset = true ∧
        ∃ e2, cache2.categories fe_a.category_path = some e2 ∧
          e2.worn_outfits.length = 1 :=
  select_random_exhaustion_resets "Casual" fe_a [] fullCache
    ⟨["a.avatar"], 1, 0⟩ 0 5 rfl rfl rfl rfl

/-- C2 counterexample: a call on a category whose current file list is
non-empty can return "no selection". With the single current file
`a.avatar` already worn in a stale entry whose total is 2, the rotation is
not complete, the candidate set is empty, and the call returns
`Ok(None)`. -/
theorem select_random_nonempty_no_selection :
    select_random_outfit "Casual" [fe_a] staleCache 0 0 =
      .ok (none, staleCache) := rfl

/-- C2 (amended): on a non-empty file list the call returns a selection
whenever the entry's rotation is complete (the reset empties the worn set,
so every file is a candidate) or some current file name is unworn; the
candidate set after the possible reset is empty — and the call returns "no
selection" — exactly in the remaining stale-entry case: rotation not
complete yet every current file name already worn. -/
theorem select_random_candidates_characterization (category_name : String)
    (o : FileEntry) (rest : List FileEntry) (cache c1 : OutfitCache)
    (e : CategoryCache) (k now : Nat)
    (hname : isBlank category_name = false)
    (hgc : cache.get_or_create o.category_path (o :: rest).length now =
      (c1, e)) :
    ((e.is_rotation_complete = true ∨
        ∃ x ∈ o :: rest, e.worn_outfits.contains x.file_name = false) →
      ∃ sel cache2,
        select_random_outfit category_name (o :: rest) cache k now =
          .ok (some sel, cache2)) ∧
    ((e.is_rotation_complete = false ∧
        ∀ x ∈ o :: rest, e.worn_outfits.contains x.file_name = true) →
      select_random_outfit category_name (o :: rest) cache k now =
        .ok (none, cache)) := by
  constructor
  · intro h
    cases hc : e.is_rotation_complete with
    | true =>
      simp only [select_random_outfit, hname, Bool.false_eq_true, if_false,
        List.isEmpty_cons, List.headI, hgc, hc, if_true,
        CategoryCache.reset, List.contains_nil, Bool.not_false,
        List.filter_true]
      have hi : k % (o :: rest).length < (o :: rest).length :=
        Nat.mod_lt _ (Nat.succ_pos _)
      rw [List.getElem?_eq_getElem hi]
      exact ⟨_, _, rfl⟩
    | false =>
      rcases h with h | ⟨x, hx, hxw⟩
      · rw [hc] at h
        exact absurd h (by simp)
      · simp only [select_random_outfit, hname, Bool.false_eq_true, if_false,
          List.isEmpty_cons, List.headI, hgc, hc]
        have hmem : x ∈ (o :: rest).filter
            (fun y => !(e.worn_outfits.contains y.file_name)) := by
          rw [List.mem_filter]
          exact ⟨hx, by simpa using hxw⟩
        have hpos : 0 < ((o :: rest).filter
            (fun y => !(e.worn_outfits.contains y.file_name))).length :=
          List.length_pos.mpr (List.ne_nil_of_mem hmem)
        have hi := Nat.mod_lt k hpos
        rw [List.getElem?_eq_getElem hi]
        exact ⟨_, _, rfl⟩
  · rintro ⟨hc, hall⟩
    have hav : (o :: rest).filter
        (fun y => !(e.worn_outfits.contains y.file_name)) = [] := by
      rw [List.filter_eq_nil_iff]
      intro a ha
      simpa using hall a ha
    simp only [select_random_outfit, hname, Bool.false_eq_true, if_false,
      List.isEmpty_cons, List.headI, hgc, hc, hav, List.getElem?_nil]

/-- C2 witness: on a fresh cache the created entry has an empty worn set,
so the single unworn file makes the candidate set non-empty and the call
returns a selection. -/
theorem select_random_candidates_characterization_witness :
    ∃ sel cache2,
      select_random_outfit "Casual" [fe_a] emptyCache 0 7 =
        .ok (some sel, cache2) :=
  (select_random_candidates_characterization "Casual" fe_a [] emptyCache
      (emptyCache.updateEntry fe_a.category_path (CategoryCache.new 1 7))
      (CategoryCache.new 1 7) 0 7 rfl rfl).1
    (Or.inr ⟨fe_a, by simp, rfl⟩)

/-- C10: whenever `select_random_outfit` returns `Ok(None)`, the persisted
cache is exactly the cache that was loaded — no save happens, so any
in-memory mutation (including a step-3 reset) is discarded. -/
theorem select_random_none_not_saved (category_name : String)
    (outfits : List FileEntry) (cache cache2 : OutfitCache) (k now : Nat)
    (h : select_random_outfit category_name outfits cache k now =
      .ok (none, cache2)) :
    cache2 = cache := by
  rw [select_random_outfit] at h
  split at h
  · simp at h
  · split at h
    · simp only [Except.ok.injEq, Prod.mk.injEq] at h
      exact h.2.symm
    · dsimp only at h
      split at h
      · simp at h
      · simp only [Except.ok.injEq, Prod.mk.injEq] at h
        exact h.2.symm

/-- C10 witness: the stale-entry call that returns "no selection" leaves
the persisted cache equal to the loaded one. -/
theorem select_random_none_not_saved_witness : staleCache = staleCache :=
  select_random_none_not_saved "Casual" [fe_a] staleCache staleCache 0 0 rfl

end OutfitPickerCLI
